import Mathlib

/-!
Verification of the `a2a-swap` langchain/crewai tool-wrapper repository.

The development shallowly embeds:
* `src/packages/langchain-plugin/a2a_swap_langchain/_cli.py` — the subprocess
  transport wrapper `run` (command-line construction, exit-code handling,
  JSON-decode handling, error-message construction);
* `src/langchain-plugin/a2a_swap_langchain/tools.py` — the seven tool classes'
  `_run` methods (CLI invocation per tool and text rendering of responses) and
  `get_tools`;
* `src/langchain-plugin/a2a_swap_langchain/__init__.py` and `crewai.py` —
  the export lists;
* the AMM pool engine of spec §4.2, which is named but not implemented in the
  repository (modelled from the spec where noted).

Python dictionaries parsed from the CLI's JSON output are modelled as
association lists of `PyVal` values; `json.loads` itself is out of scope
(spec §1 excludes JSON (de)serialization) and is therefore a parameter of the
transport model.
-/

namespace A2ASwap

/-- Model of a Python value as read out of the parsed JSON response.
Containers (`list`, `dict`) occur only as the `positions` array of the
`my-fees` response; their Python `repr` rendering is never exercised by a
protocol-conformant response and is modelled by a placeholder. -/
inductive PyVal where
  | none
  | str (s : String)
  | int (n : Int)
  | bool (b : Bool)
  | list (xs : List PyVal)
  | dict (fields : List (String × PyVal))
deriving Repr

/-- Python `str()` / f-string interpolation of a value. -/
def pyStr : PyVal → String
  | .none => "None"
  | .str s => s
  | .int n => toString n
  | .bool b => if b then "True" else "False"
  | .list _ => "<list>"
  | .dict _ => "<dict>"

/-- Python truthiness of a value. -/
def pyTruthy : PyVal → Bool
  | .none => false
  | .str s => !(s == "")
  | .int n => !(n == 0)
  | .bool b => b
  | .list xs => !xs.isEmpty
  | .dict fs => !fs.isEmpty

/-- A parsed JSON object (Python `dict[str, Any]`). -/
def Dict := List (String × PyVal)

/-- `data.get(key)` — `None` when the key is absent. -/
def dget (d : Dict) (k : String) : PyVal :=
  (List.lookup k d).getD .none

/-- `data.get(key, default)`. -/
def dgetD (d : Dict) (k : String) (dflt : PyVal) : PyVal :=
  (List.lookup k d).getD dflt

/-- `pos.get(key, default)` on a value expected to be a dict (as in the
`my-fees` positions loop); a non-dict would raise in Python and is modelled
by the default. -/
def pget (v : PyVal) (k : String) (dflt : PyVal) : PyVal :=
  match v with
  | .dict fs => (List.lookup k fs).getD dflt
  | _ => dflt

/-- The ASCII whitespace stripped by Python `str.strip()`. -/
def pyWs (c : Char) : Bool :=
  c == ' ' || c == '\t' || c == '\n' || c == '\r' ||
    c == (Char.ofNat 11) || c == (Char.ofNat 12)

/-- Python `str.strip()` (ASCII whitespace). -/
def pyStrip (s : String) : String :=
  String.mk (((s.toList.dropWhile pyWs).reverse.dropWhile pyWs).reverse)

/-- Rendering of `f"{float(n)/100:.2f}"` for a non-negative integer `n`
(as applied by `A2APoolInfoTool._run` to `fee_rate_bps`): the exact decimal
of `n / 100` with two digits after the point. -/
def fmt2 (n : Nat) : String :=
  toString (n / 100) ++ "." ++ (if n % 100 < 10 then "0" else "") ++ toString (n % 100)

/-- The numeric value `float(...)` extracts from the `fee_rate_bps` field
(default `0` when the key is absent); a non-integer value would raise in
Python and is modelled as `0`. -/
def bpsOf (d : Dict) : Nat :=
  match dgetD d "fee_rate_bps" (.int 0) with
  | .int n => n.toNat
  | _ => 0

/-! ## The subprocess transport (`_cli.py`) -/

/-- Outcome of `subprocess.run` on the CLI binary. -/
structure CliResult where
  exitCode : Int
  stdout : String
  stderr : String

/-- Default RPC endpoint (`_DEFAULT_RPC` in `_cli.py`). -/
def defaultRpc : String := "https://api.mainnet-beta.solana.com"

/-- The relevant environment variables. -/
structure Env where
  a2aKeypair : Option String
  a2aRpcUrl : Option String

/-- Python `x or y` for an optional string `x` (empty string is falsy). -/
def pyOrStr (x : Option String) (y : String) : String :=
  match x with
  | some s => if s = "" then y else s
  | none => y

/-- `rpc_url or os.environ.get("A2A_RPC_URL", _DEFAULT_RPC)`. -/
def resolveRpc (rpc_url : Option String) (env : Env) : String :=
  pyOrStr rpc_url (env.a2aRpcUrl.getD defaultRpc)

/-- `keypair or os.environ.get("A2A_KEYPAIR")`. -/
def resolveKp (keypair : Option String) (env : Env) : Option String :=
  match keypair with
  | some s => if s = "" then env.a2aKeypair else some s
  | none => env.a2aKeypair

/-- The `["--keypair", kp]` segment, present only when the resolved keypair
is truthy (`if resolved_kp:`). -/
def kpSegment (keypair : Option String) (env : Env) : List String :=
  match resolveKp keypair env with
  | some s => if s = "" then [] else ["--keypair", s]
  | none => []

/-- The full command line built by `_cli.run`:
`[cli, "--rpc-url", rpc] (++ ["--keypair", kp]) ++ [subcommand] ++ args ++ ["--json"]`. -/
def buildCmd (cli : String) (subcommand : String) (args : List String)
    (keypair rpc_url : Option String) (env : Env) : List String :=
  [cli, "--rpc-url", resolveRpc rpc_url env] ++ kpSegment keypair env ++
    (subcommand :: args) ++ ["--json"]

/-- The diagnostic picked for the failure message:
`result.stderr.strip() or result.stdout.strip()`. -/
def diagOf (r : CliResult) : String :=
  if pyStrip r.stderr = "" then pyStrip r.stdout else pyStrip r.stderr

/-- The `RuntimeError` message raised on a non-zero exit code. -/
def cliFailMsg (subcommand : String) (r : CliResult) : String :=
  "a2a-swap " ++ subcommand ++ " failed:\n" ++ diagOf r

/-- The `RuntimeError` message raised when stdout is not valid JSON. -/
def nonJsonMsg (r : CliResult) : String :=
  "a2a-swap returned non-JSON output:\n" ++ r.stdout.take 500

/-- The result-handling tail of `_cli.run`: raise on non-zero exit, then
parse stdout (the JSON parser is a parameter, see module docstring), raise
on a parse failure, otherwise return the parsed record.  No field of the
parsed record is inspected. -/
def runDecode (parse : String → Option Dict) (subcommand : String)
    (r : CliResult) : Except String Dict :=
  if r.exitCode ≠ 0 then
    .error (cliFailMsg subcommand r)
  else
    match parse r.stdout with
    | some d => .ok d
    | Option.none => .error (nonJsonMsg r)

/-! ## The seven tools (`tools.py`)

Each tool's `_run` is modelled as a pure step: given the tool's pydantic
configuration fields, the validated input, and the outcome of the single
`_cli.run` call (success with a parsed dict, or the `RuntimeError` message),
it produces the returned text.  The step also records the configuration it
finishes with (the method performs no assignment, so it is the one it
started with) and the list of CLI invocations it makes. -/

/-- Configuration fields of the read-only tool classes
(`A2ASimulateTool`, `A2APoolInfoTool`): `rpc_url` only. -/
structure ReadOnlyCfg where
  rpc_url : Option String
deriving Repr, DecidableEq

/-- Configuration fields of the wallet-using tool classes:
`keypair` and `rpc_url`. -/
structure WalletCfg where
  keypair : Option String
  rpc_url : Option String
deriving Repr, DecidableEq

/-- One invocation of `_cli.run`: the subcommand, its positional argument
list, and the `keypair` / `rpc_url` keyword arguments the tool passes. -/
structure CliCall where
  sub : String
  args : List String
  keypair : Option String
  rpc_url : Option String
deriving Repr, DecidableEq

/-- What one `_run` call produces: the returned text, the configuration
after the call, and the CLI invocations made during the call. -/
structure StepResult (Cfg : Type) where
  output : String
  finalCfg : Cfg
  calls : List CliCall

/-- Validated input of `a2a_simulate_swap` (`_SimulateInput`). -/
structure SimInput where
  mint_in : String
  mint_out : String
  amount_in : Int

/-- Validated input of `a2a_swap` (`_SwapInput`).  `max_slippage` is a
Python float; the model carries its `str()` rendering, which is all the
tool ever does with it. -/
structure SwapInput where
  mint_in : String
  mint_out : String
  amount_in : Int
  max_slippage : Option String

/-- Validated input of `a2a_provide_liquidity` (`_ProvideInput`). -/
structure ProvideInput where
  mint_a : String
  mint_b : String
  amount_a : Int
  amount_b : Option Int
  auto_compound : Bool

/-- Validated input of `a2a_remove_liquidity` (`_RemoveLiquidityInput`). -/
structure RemoveInput where
  mint_a : String
  mint_b : String
  lp_shares : Int
  min_a : Option Int
  min_b : Option Int

/-- Validated input of `a2a_claim_fees` / `a2a_pool_info` (a pair of mints). -/
structure PairInput where
  mint_a : String
  mint_b : String

/-- Python truthiness of an `Optional[int]` (as in `if min_a:`). -/
def optIntTruthy : Option Int → Bool
  | Option.none => false
  | some n => !(n == 0)

/-- `None`-aware rendering default for `data.get("amount_b", amount_b)`. -/
def optPy : Option Int → PyVal
  | Option.none => .none
  | some n => .int n

/-- Argument list built by `A2ASimulateTool._run`. -/
def simulateArgs (i : SimInput) : List String :=
  ["--in", i.mint_in, "--out", i.mint_out, "--amount", toString i.amount_in]

/-- Argument list built by `A2ASwapTool._run` (`--max-slippage` appended
when `max_slippage is not None`). -/
def swapArgs (i : SwapInput) : List String :=
  let args := ["--in", i.mint_in, "--out", i.mint_out, "--amount", toString i.amount_in]
  match i.max_slippage with
  | some s => args ++ ["--max-slippage", s]
  | Option.none => args

/-- Argument list built by `A2AProvideLiquidityTool._run`. -/
def provideArgs (i : ProvideInput) : List String :=
  let args := ["--pair", i.mint_a ++ "-" ++ i.mint_b, "--amount", toString i.amount_a]
  let args := match i.amount_b with
    | some v => args ++ ["--amount-b", toString v]
    | Option.none => args
  if i.auto_compound then args ++ ["--auto-compound"] else args

/-- Argument list built by `A2ARemoveLiquidityTool._run` (`--min-a` /
`--min-b` appended only when truthy). -/
def removeArgs (i : RemoveInput) : List String :=
  let args := ["--pair", i.mint_a ++ "-" ++ i.mint_b, "--shares", toString i.lp_shares]
  let args := if optIntTruthy i.min_a then args ++ ["--min-a", toString ((i.min_a).getD 0)] else args
  if optIntTruthy i.min_b then args ++ ["--min-b", toString ((i.min_b).getD 0)] else args

/-- Argument list built by `A2AClaimFeesTool._run`. -/
def claimFeesArgs (i : PairInput) : List String :=
  ["--pair", i.mint_a ++ "-" ++ i.mint_b]

/-- Argument list built by `A2APoolInfoTool._run`. -/
def poolInfoArgs (i : PairInput) : List String :=
  ["--pair", i.mint_a ++ "-" ++ i.mint_b]

/-- Success rendering of `A2ASimulateTool._run`. -/
def simulateRender (i : SimInput) (d : Dict) : String :=
  "Swap simulation: " ++ i.mint_in ++ " → " ++ i.mint_out ++ "\n" ++
  "  Amount in:      " ++ pyStr (dgetD d "amount_in" (.int i.amount_in)) ++ "\n" ++
  "  Protocol fee:   " ++ pyStr (dget d "protocol_fee") ++ " (0.020%)\n" ++
  "  LP fee:         " ++ pyStr (dget d "lp_fee") ++ " (" ++ pyStr (dget d "fee_rate_bps") ++ " bps)\n" ++
  "  Estimated out:  " ++ pyStr (dget d "estimated_out") ++ "\n" ++
  "  Effective rate: " ++ pyStr (dget d "effective_rate") ++ "\n" ++
  "  Price impact:   " ++ pyStr (dget d "price_impact_pct") ++ "%\n" ++
  "  Pool:           " ++ pyStr (dget d "pool")

/-- Success rendering of `A2ASwapTool._run`. -/
def swapRender (i : SwapInput) (d : Dict) : String :=
  "Swap executed: " ++ i.mint_in ++ " → " ++ i.mint_out ++ "\n" ++
  "  Amount in:     " ++ pyStr (dgetD d "amount_in" (.int i.amount_in)) ++ "\n" ++
  "  Estimated out: " ++ pyStr (dget d "estimated_out") ++ "\n" ++
  "  Signature:     " ++ pyStr (dget d "signature") ++ "\n" ++
  "  Explorer:      https://explorer.solana.com/tx/" ++ pyStr (dget d "signature")

/-- Success rendering of `A2AProvideLiquidityTool._run`. -/
def provideRender (i : ProvideInput) (d : Dict) : String :=
  "Liquidity provided to " ++ i.mint_a ++ "/" ++ i.mint_b ++ " pool\n" ++
  "  Deposited A:  " ++ pyStr (dgetD d "amount_a" (.int i.amount_a)) ++ "\n" ++
  "  Deposited B:  " ++ pyStr (dgetD d "amount_b" (optPy i.amount_b)) ++ "\n" ++
  "  LP shares:    " ++ pyStr (dget d "lp_shares") ++ "\n" ++
  "  Position:     " ++ pyStr (dget d "position") ++ "\n" ++
  "  Signature:    " ++ pyStr (dget d "signature")

/-- Success rendering of `A2ARemoveLiquidityTool._run`. -/
def removeRender (i : RemoveInput) (d : Dict) : String :=
  "Liquidity removed from " ++ i.mint_a ++ "/" ++ i.mint_b ++ " pool\n" ++
  "  LP shares burnt:  " ++ pyStr (dgetD d "lp_shares" (.int i.lp_shares)) ++ "\n" ++
  "  Expected A:       " ++ pyStr (dget d "expected_a") ++ "\n" ++
  "  Expected B:       " ++ pyStr (dget d "expected_b") ++ "\n" ++
  "  Position:         " ++ pyStr (dget d "position") ++ "\n" ++
  "  Signature:        " ++ pyStr (dget d "tx") ++ "\n" ++
  "  Run a2a_claim_fees to collect any accrued fees."

/-- Python `==` between a value and a string literal: true exactly when the
value is that string. -/
def pyEqStr (v : PyVal) (t : String) : Bool :=
  match v with
  | .str s => s == t
  | _ => false

/-- Success rendering of `A2AClaimFeesTool._run`: the sentinel branch when
`data.get("note") == "No fees to claim"`, the fee report otherwise. -/
def claimFeesRender (i : PairInput) (d : Dict) : String :=
  if pyEqStr (dget d "note") "No fees to claim" then
    "No fees to claim for " ++ i.mint_a ++ "/" ++ i.mint_b ++ " position."
  else
    let mode := if pyTruthy (dget d "auto_compound") then
      "auto-compounded into LP shares" else "transferred to wallet"
    "Fees claimed from " ++ i.mint_a ++ "/" ++ i.mint_b ++ " pool\n" ++
    "  Fees A:    " ++ pyStr (dget d "fees_a") ++ "\n" ++
    "  Fees B:    " ++ pyStr (dget d "fees_b") ++ "\n" ++
    "  Mode:      " ++ mode ++ "\n" ++
    "  Signature: " ++ pyStr (dget d "tx")

/-- Success rendering of `A2APoolInfoTool._run`; the fee-rate line shows
the raw `fee_rate_bps` and its conversion to a percentage
(`float(...) / 100` formatted `:.2f`). -/
def poolInfoRender (i : PairInput) (d : Dict) : String :=
  "Pool info: " ++ i.mint_a ++ " / " ++ i.mint_b ++ "\n" ++
  "  Pool:       " ++ pyStr (dget d "pool") ++ "\n" ++
  "  Reserve A:  " ++ pyStr (dget d "reserve_a") ++ "\n" ++
  "  Reserve B:  " ++ pyStr (dget d "reserve_b") ++ "\n" ++
  "  LP supply:  " ++ pyStr (dget d "lp_supply") ++ "\n" ++
  "  Fee rate:   " ++ pyStr (dget d "fee_rate_bps") ++ " bps " ++
  "(" ++ fmt2 (bpsOf d) ++ "%)\n" ++
  "  Spot price: " ++ pyStr (dget d "spot_price")

/-- The `positions` list extracted by `A2AMyFeesTool._run`
(`data.get("positions", [])`); a truthy non-list would raise in Python and
is modelled as empty. -/
def positionsOf (d : Dict) : List PyVal :=
  match dgetD d "positions" (.list []) with
  | .list xs => xs
  | _ => []

/-- One line of the `my-fees` per-position report. -/
def myFeesLine (idx : Nat) (pos : PyVal) : String :=
  "  [" ++ toString idx ++ "] " ++ (pyStr (pget pos "address" (.str ""))).take 8 ++ "…  " ++
  "LP: " ++ pyStr (pget pos "lp_shares" .none) ++ "  " ++
  "fees A: " ++ pyStr (pget pos "fees_a" .none) ++ "  " ++
  "fees B: " ++ pyStr (pget pos "fees_b" .none)

/-- Success rendering of `A2AMyFeesTool._run`. -/
def myFeesRender (d : Dict) : String :=
  if !(pyTruthy (dgetD d "positions" (.list []))) then
    "No LP positions found for this agent."
  else
    let positions := positionsOf d
    let lines := positions.enum.map (fun p => myFeesLine p.1 p.2)
    "Fee summary (" ++ toString positions.length ++ " position" ++
    (if positions.length ≠ 1 then "s" else "") ++ "):\n" ++
    String.intercalate "\n" lines ++
    "\n  Total fees A: " ++ pyStr (dget d "total_fees_a") ++
    "\n  Total fees B: " ++ pyStr (dget d "total_fees_b")

/-- The outcome of the single `_cli.run` call inside a `_run` body:
the parsed dict, or the message of the `RuntimeError` caught by
`except RuntimeError as exc`. -/
def Outcome := Except String Dict

/-- `A2ASimulateTool._run` (keypair is never passed; `rpc_url=self.rpc_url`). -/
def simulateStep (cfg : ReadOnlyCfg) (i : SimInput) (o : Outcome) : StepResult ReadOnlyCfg :=
  { output := match o with
      | .ok d => simulateRender i d
      | .error e => "Simulation failed: " ++ e
    finalCfg := cfg
    calls := [⟨"simulate", simulateArgs i, Option.none, cfg.rpc_url⟩] }

/-- `A2ASwapTool._run`. -/
def swapStep (cfg : WalletCfg) (i : SwapInput) (o : Outcome) : StepResult WalletCfg :=
  { output := match o with
      | .ok d => swapRender i d
      | .error e => "Swap failed: " ++ e
    finalCfg := cfg
    calls := [⟨"convert", swapArgs i, cfg.keypair, cfg.rpc_url⟩] }

/-- `A2AProvideLiquidityTool._run`. -/
def provideStep (cfg : WalletCfg) (i : ProvideInput) (o : Outcome) : StepResult WalletCfg :=
  { output := match o with
      | .ok d => provideRender i d
      | .error e => "Provide liquidity failed: " ++ e
    finalCfg := cfg
    calls := [⟨"provide", provideArgs i, cfg.keypair, cfg.rpc_url⟩] }

/-- `A2ARemoveLiquidityTool._run`. -/
def removeStep (cfg : WalletCfg) (i : RemoveInput) (o : Outcome) : StepResult WalletCfg :=
  { output := match o with
      | .ok d => removeRender i d
      | .error e => "Remove liquidity failed: " ++ e
    finalCfg := cfg
    calls := [⟨"remove-liquidity", removeArgs i, cfg.keypair, cfg.rpc_url⟩] }

/-- `A2AClaimFeesTool._run`. -/
def claimFeesStep (cfg : WalletCfg) (i : PairInput) (o : Outcome) : StepResult WalletCfg :=
  { output := match o with
      | .ok d => claimFeesRender i d
      | .error e => "Claim fees failed: " ++ e
    finalCfg := cfg
    calls := [⟨"claim-fees", claimFeesArgs i, cfg.keypair, cfg.rpc_url⟩] }

/-- `A2APoolInfoTool._run` (keypair is never passed). -/
def poolInfoStep (cfg : ReadOnlyCfg) (i : PairInput) (o : Outcome) : StepResult ReadOnlyCfg :=
  { output := match o with
      | .ok d => poolInfoRender i d
      | .error e => "Pool info failed: " ++ e
    finalCfg := cfg
    calls := [⟨"pool-info", poolInfoArgs i, Option.none, cfg.rpc_url⟩] }

/-- `A2AMyFeesTool._run` (no command arguments). -/
def myFeesStep (cfg : WalletCfg) (o : Outcome) : StepResult WalletCfg :=
  { output := match o with
      | .ok d => myFeesRender d
      | .error e => "Fee check failed: " ++ e
    finalCfg := cfg
    calls := [⟨"my-fees", [], cfg.keypair, cfg.rpc_url⟩] }

/-! ## The tool bundle (`get_tools`) and the module exports -/

/-- A constructed tool instance: the class and the configuration values it
was constructed with (read-only classes have no `keypair` field). -/
inductive Tool where
  | simulate (rpc_url : Option String)
  | swap (keypair rpc_url : Option String)
  | provideLiquidity (keypair rpc_url : Option String)
  | removeLiquidity (keypair rpc_url : Option String)
  | claimFees (keypair rpc_url : Option String)
  | poolInfo (rpc_url : Option String)
  | myFees (keypair rpc_url : Option String)
deriving Repr, DecidableEq

/-- `get_tools(keypair, rpc_url)` from `tools.py`. -/
def get_tools (keypair rpc_url : Option String) : List Tool :=
  [ .simulate rpc_url,
    .swap keypair rpc_url,
    .provideLiquidity keypair rpc_url,
    .removeLiquidity keypair rpc_url,
    .claimFees keypair rpc_url,
    .poolInfo rpc_url,
    .myFees keypair rpc_url ]

/-- The protocol command each tool class invokes (the `sub` of the
`CliCall` its step emits). -/
def toolCommand : Tool → String
  | .simulate _ => "simulate"
  | .swap _ _ => "convert"
  | .provideLiquidity _ _ => "provide"
  | .removeLiquidity _ _ => "remove-liquidity"
  | .claimFees _ _ => "claim-fees"
  | .poolInfo _ => "pool-info"
  | .myFees _ _ => "my-fees"

/-- The `keypair` a tool instance was configured with; `Option.none` for
the two read-only classes, which have no such field. -/
def toolKeypair : Tool → Option (Option String)
  | .simulate _ => Option.none
  | .swap kp _ => some kp
  | .provideLiquidity kp _ => some kp
  | .removeLiquidity kp _ => some kp
  | .claimFees kp _ => some kp
  | .poolInfo _ => Option.none
  | .myFees kp _ => some kp

/-- The `rpc_url` a tool instance was configured with. -/
def toolRpc : Tool → Option String
  | .simulate rpc => rpc
  | .swap _ rpc => rpc
  | .provideLiquidity _ rpc => rpc
  | .removeLiquidity _ rpc => rpc
  | .claimFees _ rpc => rpc
  | .poolInfo rpc => rpc
  | .myFees _ rpc => rpc

/-- The Python class name of a tool instance. -/
def toolClassName : Tool → String
  | .simulate _ => "A2ASimulateTool"
  | .swap _ _ => "A2ASwapTool"
  | .provideLiquidity _ _ => "A2AProvideLiquidityTool"
  | .removeLiquidity _ _ => "A2ARemoveLiquidityTool"
  | .claimFees _ _ => "A2AClaimFeesTool"
  | .poolInfo _ => "A2APoolInfoTool"
  | .myFees _ _ => "A2AMyFeesTool"

/-- `__all__` of `a2a_swap_langchain/__init__.py`. -/
def initAll : List String :=
  ["A2ASimulateTool", "A2ASwapTool", "A2AProvideLiquidityTool",
   "A2APoolInfoTool", "A2AMyFeesTool", "get_tools"]

/-- The names in the `from .tools import (...)` list of `__init__.py`. -/
def initImports : List String :=
  ["A2ASimulateTool", "A2ASwapTool", "A2AProvideLiquidityTool",
   "A2APoolInfoTool", "A2AMyFeesTool", "get_tools"]

/-- `__all__` of `a2a_swap_langchain/crewai.py`. -/
def crewaiAll : List String :=
  ["A2ASimulateTool", "A2ASwapTool", "A2AProvideLiquidityTool",
   "A2APoolInfoTool", "A2AMyFeesTool", "get_tools"]

/-- The names in the `from .tools import (...)` list of `crewai.py`. -/
def crewaiImports : List String :=
  ["A2ASimulateTool", "A2ASwapTool", "A2AProvideLiquidityTool",
   "A2APoolInfoTool", "A2AMyFeesTool", "get_tools"]

/-! ## The AMM pool engine (spec §4.2)

The engine is named but not implemented in this repository; the following
definitions are modelled from the specification's own formulas. -/

/-- Modelled from the spec: the Pool record of §3 (mints, integer reserves
in atomic units, LP supply, immutable fee rate in basis points); the
fee-per-share accumulators are not needed for the swap invariant and are
omitted. -/
structure Pool where
  mint_a : String
  mint_b : String
  reserve_a : Nat
  reserve_b : Nat
  lp_supply : Nat
  fee_rate_bps : Nat
deriving Repr, DecidableEq

/-- Modelled from the spec: the error taxonomy of §7 restricted to the swap
path. -/
inductive SwapError where
  | zeroAmount
  | unknownMint
  | emptyPool
  | insufficientOutput
deriving Repr, DecidableEq

/-- Modelled from the spec: matching `mint_in` against `mint_a` / `mint_b`
(§4.2); `some true` when the input side is A, `some false` when it is B,
`none` for an unknown mint. -/
def dirOf (p : Pool) (mint_in : String) : Option Bool :=
  if mint_in = p.mint_a then some true
  else if mint_in = p.mint_b then some false
  else Option.none

/-- Modelled from the spec: `protocol_fee = amount_in * 2 / 10000` (floor). -/
def protocolFee (amount_in : Nat) : Nat := amount_in * 2 / 10000

/-- Modelled from the spec: `lp_fee = amount_in * (fee_rate_bps - 2) / 10000`
(floor). -/
def lpFee (amount_in fee_rate_bps : Nat) : Nat :=
  amount_in * (fee_rate_bps - 2) / 10000

/-- Modelled from the spec:
`net_in = amount_in - protocol_fee - lp_fee`. -/
def netIn (amount_in fee_rate_bps : Nat) : Nat :=
  amount_in - protocolFee amount_in - lpFee amount_in fee_rate_bps

/-- Modelled from the spec: the §4.2 constant-product output formula
`amount_out = reserve_out - floor(reserve_in * reserve_out / (reserve_in + net_in))`. -/
def amountOut (reserve_in reserve_out net_in : Nat) : Nat :=
  reserve_out - reserve_in * reserve_out / (reserve_in + net_in)

/-- Modelled from the spec: the result of `quote_swap` (§4.2); the
display-only float fields (`effective_rate`, `price_impact_pct`) are
omitted. -/
structure SwapQuote where
  amount_out : Nat
  protocol_fee : Nat
  lp_fee : Nat
  net_in : Nat
  dirA : Bool
deriving Repr, DecidableEq

/-- The input-side reserve for a swap direction (`true` = A in). -/
def inReserve (p : Pool) : Bool → Nat
  | true => p.reserve_a
  | false => p.reserve_b

/-- The output-side reserve for a swap direction (`true` = A in). -/
def outReserve (p : Pool) : Bool → Nat
  | true => p.reserve_b
  | false => p.reserve_a

/-- Modelled from the spec: `quote_swap` (§4.2).  Fails with `ZeroAmount`
when `amount_in == 0`, `UnknownMint` when the mint matches neither side,
`EmptyPool` when either reserve is 0; otherwise computes the fee split and
the constant-product output. -/
def quote_swap (p : Pool) (mint_in : String) (amount_in : Nat) :
    Except SwapError SwapQuote :=
  if amount_in = 0 then .error .zeroAmount
  else
    match dirOf p mint_in with
    | Option.none => .error .unknownMint
    | some dirA =>
      let rin := inReserve p dirA
      let rout := outReserve p dirA
      if rin = 0 ∨ rout = 0 then .error .emptyPool
      else
        let pf := protocolFee amount_in
        let lpf := lpFee amount_in p.fee_rate_bps
        let net := netIn amount_in p.fee_rate_bps
        .ok ⟨amountOut rin rout net, pf, lpf, net, dirA⟩

/-- Modelled from the spec: `apply_swap` (§4.2).  Re-derives the quote,
enforces the caller-supplied `min_out` guard (`InsufficientOutput`), then
atomically grows the input reserve by `net_in + lp_fee` (the LP fee stays
in the pool) and shrinks the output reserve by `amount_out`; the protocol
fee is routed to an external treasury and leaves the pool. -/
def apply_swap (p : Pool) (mint_in : String) (amount_in min_out : Nat) :
    Except SwapError Pool :=
  match quote_swap p mint_in amount_in with
  | .error e => .error e
  | .ok q =>
    if q.amount_out < min_out then .error .insufficientOutput
    else if q.dirA then
      .ok { p with
        reserve_a := p.reserve_a + q.net_in + q.lp_fee,
        reserve_b := p.reserve_b - q.amount_out }
    else
      .ok { p with
        reserve_b := p.reserve_b + q.net_in + q.lp_fee,
        reserve_a := p.reserve_a - q.amount_out }

/-! ## Concrete fixtures used by the counterexamples and witnesses -/

/-- A protocol-conformant `pool-info` response. -/
def cexPoolDict : Dict :=
  [("pool", .str "POOLADDR"), ("reserve_a", .int 1000), ("reserve_b", .int 2000),
   ("lp_supply", .int 500), ("fee_rate_bps", .int 30), ("spot_price", .str "2.0")]

/-- A parsed JSON response whose only field is an explicit error field. -/
def errDict : Dict := [("error", .str "boom")]

/-- A JSON parser fragment: accepts exactly the error-envelope document of
`cexJsonResult` (standing in for `json.loads`, which is external). -/
def cexJsonParse : String → Option Dict :=
  fun s => if s = "\x7b\"error\": \"boom\"\x7d" then some errDict else Option.none

/-- A CLI process outcome: exit code 0, stdout a valid JSON object carrying
an explicit `error` field. -/
def cexJsonResult : CliResult :=
  { exitCode := 0, stdout := "\x7b\"error\": \"boom\"\x7d", stderr := "" }

/-- A CLI process outcome: non-zero exit with a diagnostic on stderr. -/
def cexFailResult : CliResult :=
  { exitCode := 1, stdout := "", stderr := " boom \n" }

/-- A concrete swap request. -/
def cexSwapInput : SwapInput :=
  { mint_in := "SOL", mint_out := "USDC", amount_in := 1000000000,
    max_slippage := some "0.5" }

/-- A concrete pool used by the swap-invariant witness. -/
def wPool : Pool :=
  { mint_a := "A", mint_b := "B", reserve_a := 1000, reserve_b := 2000,
    lp_supply := 500, fee_rate_bps := 30 }

/-- A concrete pool on whose reserves the §4.2 output formula makes the
reserve product decrease. -/
def cexPool : Pool :=
  { mint_a := "A", mint_b := "B", reserve_a := 1000, reserve_b := 1000,
    lp_supply := 1000, fee_rate_bps := 30 }

/-! ## Theorems -/

/-- C10: the package root (`__init__.py`) and the crewai module export only
five of the seven tool classes (`A2ASimulateTool`, `A2ASwapTool`,
`A2AProvideLiquidityTool`, `A2APoolInfoTool`, `A2AMyFeesTool`) plus
`get_tools`; `A2ARemoveLiquidityTool` and `A2AClaimFeesTool` are absent
from both `__all__` lists and both import lists, even though `get_tools`
still instantiates both classes. -/
theorem claim10_exports :
    initAll = ["A2ASimulateTool", "A2ASwapTool", "A2AProvideLiquidityTool",
      "A2APoolInfoTool", "A2AMyFeesTool", "get_tools"] ∧
    crewaiAll = initAll ∧ initImports = initAll ∧ crewaiImports = initAll ∧
    "A2ARemoveLiquidityTool" ∉ initAll ∧ "A2AClaimFeesTool" ∉ initAll ∧
    "A2ARemoveLiquidityTool" ∉ crewaiAll ∧ "A2AClaimFeesTool" ∉ crewaiAll ∧
    "A2ARemoveLiquidityTool" ∉ initImports ∧ "A2AClaimFeesTool" ∉ initImports ∧
    "A2ARemoveLiquidityTool" ∉ crewaiImports ∧ "A2AClaimFeesTool" ∉ crewaiImports ∧
    "A2ARemoveLiquidityTool" ∈ (get_tools Option.none Option.none).map toolClassName ∧
    "A2AClaimFeesTool" ∈ (get_tools Option.none Option.none).map toolClassName := by
  decide

/-- C9: for every `keypair` / `rpc_url` pair, `get_tools` returns exactly
seven tool instances, one per protocol command, where the five wallet-using
tools carry both the keypair and the rpc url and the two read-only tools
(simulate, pool-info) carry the rpc url only (they have no keypair field). -/
theorem claim9_get_tools_bundle (keypair rpc_url : Option String) :
    (get_tools keypair rpc_url).length = 7 ∧
    (get_tools keypair rpc_url).map toolCommand =
      ["simulate", "convert", "provide", "remove-liquidity", "claim-fees",
       "pool-info", "my-fees"] ∧
    (get_tools keypair rpc_url).map toolKeypair =
      [Option.none, some keypair, some keypair, some keypair, some keypair,
       Option.none, some keypair] ∧
    (get_tools keypair rpc_url).map toolRpc =
      [rpc_url, rpc_url, rpc_url, rpc_url, rpc_url, rpc_url, rpc_url] :=
  ⟨rfl, rfl, rfl, rfl⟩

/-- C2: each tool invokes exactly the protocol-table CLI command with the
listed inputs — `simulate` with `--in`, `--out`, `--amount`; `convert` with
`--in`, `--out`, `--amount` and optionally `--max-slippage`; `provide` with
`--pair`, `--amount`, optionally `--amount-b` and `--auto-compound`;
`remove-liquidity` with `--pair`, `--shares`, optionally `--min-a` /
`--min-b`; `claim-fees` and `pool-info` with `--pair`; `my-fees` with no
command arguments — and every integral amount is rendered with `str()`
in atomic units (`toString` here; the slippage tolerance, a percentage
float, is likewise rendered with `str()` and carried as that string). -/
theorem claim2_protocol_calls (rcfg : ReadOnlyCfg) (wcfg : WalletCfg)
    (si : SimInput) (wi : SwapInput) (pv : ProvideInput) (rm : RemoveInput)
    (cf qi : PairInput) (o : Outcome) :
    (simulateStep rcfg si o).calls =
      [⟨"simulate",
        ["--in", si.mint_in, "--out", si.mint_out, "--amount", toString si.amount_in],
        Option.none, rcfg.rpc_url⟩] ∧
    (swapStep wcfg wi o).calls =
      [⟨"convert",
        ["--in", wi.mint_in, "--out", wi.mint_out, "--amount", toString wi.amount_in] ++
          (match wi.max_slippage with
            | some s => ["--max-slippage", s]
            | Option.none => []),
        wcfg.keypair, wcfg.rpc_url⟩] ∧
    (provideStep wcfg pv o).calls =
      [⟨"provide",
        ["--pair", pv.mint_a ++ "-" ++ pv.mint_b, "--amount", toString pv.amount_a] ++
          (match pv.amount_b with
            | some v => ["--amount-b", toString v]
            | Option.none => []) ++
          (if pv.auto_compound then ["--auto-compound"] else []),
        wcfg.keypair, wcfg.rpc_url⟩] ∧
    (removeStep wcfg rm o).calls =
      [⟨"remove-liquidity",
        ["--pair", rm.mint_a ++ "-" ++ rm.mint_b, "--shares", toString rm.lp_shares] ++
          (if optIntTruthy rm.min_a then ["--min-a", toString (rm.min_a.getD 0)] else []) ++
          (if optIntTruthy rm.min_b then ["--min-b", toString (rm.min_b.getD 0)] else []),
        wcfg.keypair, wcfg.rpc_url⟩] ∧
    (claimFeesStep wcfg cf o).calls =
      [⟨"claim-fees", ["--pair", cf.mint_a ++ "-" ++ cf.mint_b],
        wcfg.keypair, wcfg.rpc_url⟩] ∧
    (poolInfoStep rcfg qi o).calls =
      [⟨"pool-info", ["--pair", qi.mint_a ++ "-" ++ qi.mint_b],
        Option.none, rcfg.rpc_url⟩] ∧
    (myFeesStep wcfg o).calls = [⟨"my-fees", [], wcfg.keypair, wcfg.rpc_url⟩] := by
  refine ⟨rfl, ?_, ?_, ?_, rfl, rfl, rfl⟩
  · cases h : wi.max_slippage <;>
      simp [swapStep, swapArgs, h]
  · cases hb : pv.amount_b <;> cases hc : pv.auto_compound <;>
      simp [provideStep, provideArgs, hb, hc]
  · cases h1 : optIntTruthy rm.min_a <;> cases h2 : optIntTruthy rm.min_b <;>
      simp [removeStep, removeArgs, h1, h2]

/-- C5: every `_run` call performs exactly one CLI invocation, and a failed
mutating command (`convert`, `provide`, `remove-liquidity`, `claim-fees`)
is not re-invoked: on a transport error the recorded trace still holds
exactly the single original invocation. -/
theorem claim5_single_invocation (rcfg : ReadOnlyCfg) (wcfg : WalletCfg)
    (si : SimInput) (wi : SwapInput) (pv : ProvideInput) (rm : RemoveInput)
    (cf qi : PairInput) (o : Outcome) (e : String) :
    (simulateStep rcfg si o).calls.length = 1 ∧
    (swapStep wcfg wi o).calls.length = 1 ∧
    (provideStep wcfg pv o).calls.length = 1 ∧
    (removeStep wcfg rm o).calls.length = 1 ∧
    (claimFeesStep wcfg cf o).calls.length = 1 ∧
    (poolInfoStep rcfg qi o).calls.length = 1 ∧
    (myFeesStep wcfg o).calls.length = 1 ∧
    (swapStep wcfg wi (.error e)).calls =
      [⟨"convert", swapArgs wi, wcfg.keypair, wcfg.rpc_url⟩] ∧
    (provideStep wcfg pv (.error e)).calls =
      [⟨"provide", provideArgs pv, wcfg.keypair, wcfg.rpc_url⟩] ∧
    (removeStep wcfg rm (.error e)).calls =
      [⟨"remove-liquidity", removeArgs rm, wcfg.keypair, wcfg.rpc_url⟩] ∧
    (claimFeesStep wcfg cf (.error e)).calls =
      [⟨"claim-fees", claimFeesArgs cf, wcfg.keypair, wcfg.rpc_url⟩] :=
  ⟨rfl, rfl, rfl, rfl, rfl, rfl, rfl, rfl, rfl, rfl, rfl⟩

/-- C1 (amended): every tool's `_run` issues its single CLI call and
reformats the outcome as text from the call's own input and response alone —
the configuration fields are never written (the state after a call equals
the state at construction) and a later call's output is unaffected by an
earlier one; the one piece of arithmetic performed on a response value is
`A2APoolInfoTool`'s display-only fee-rate percentage, whose rendered text
is `fmt2` (two-decimal formatting of `fee_rate_bps / 100`) spliced between
fixed template pieces. -/
theorem claim1_stateless_reformat (rcfg : ReadOnlyCfg) (wcfg : WalletCfg)
    (si si' : SimInput) (wi wi' : SwapInput) (pv : ProvideInput)
    (rm : RemoveInput) (cf qi : PairInput) (o o' : Outcome) (d : Dict) :
    (simulateStep rcfg si o).finalCfg = rcfg ∧
    (swapStep wcfg wi o).finalCfg = wcfg ∧
    (provideStep wcfg pv o).finalCfg = wcfg ∧
    (removeStep wcfg rm o).finalCfg = wcfg ∧
    (claimFeesStep wcfg cf o).finalCfg = wcfg ∧
    (poolInfoStep rcfg qi o).finalCfg = rcfg ∧
    (myFeesStep wcfg o).finalCfg = wcfg ∧
    (swapStep (swapStep wcfg wi o).finalCfg wi' o').output =
      (swapStep wcfg wi' o').output ∧
    (simulateStep (simulateStep rcfg si o).finalCfg si' o').output =
      (simulateStep rcfg si' o').output ∧
    (∃ t u, poolInfoRender qi d = t ++ (fmt2 (bpsOf d) ++ u)) := by
  refine ⟨rfl, rfl, rfl, rfl, rfl, rfl, rfl, rfl, rfl, ?_⟩
  refine ⟨"Pool info: " ++ qi.mint_a ++ " / " ++ qi.mint_b ++ "\n" ++
    "  Pool:       " ++ pyStr (dget d "pool") ++ "\n" ++
    "  Reserve A:  " ++ pyStr (dget d "reserve_a") ++ "\n" ++
    "  Reserve B:  " ++ pyStr (dget d "reserve_b") ++ "\n" ++
    "  LP supply:  " ++ pyStr (dget d "lp_supply") ++ "\n" ++
    "  Fee rate:   " ++ pyStr (dget d "fee_rate_bps") ++ " bps " ++ "(",
    "%)\n" ++ "  Spot price: " ++ pyStr (dget d "spot_price"), ?_⟩
  simp only [poolInfoRender, String.append_assoc]

/-- C1 counterexample: the claim says no tool performs arithmetic on
response values, but `A2APoolInfoTool._run` renders
`float(data.get("fee_rate_bps", 0)) / 100` — on a response whose
`fee_rate_bps` field is the integer 30 (rendered verbatim as "30"), the
output shows the computed string "0.30", which is not the verbatim
rendering of that field. -/
theorem claim1_poolinfo_arithmetic_cex :
    (poolInfoStep ⟨Option.none⟩ ⟨"SOL", "USDC"⟩ (.ok cexPoolDict)).output =
      "Pool info: SOL / USDC\n  Pool:       POOLADDR\n  Reserve A:  1000\n  Reserve B:  2000\n  LP supply:  500\n  Fee rate:   30 bps (0.30%)\n  Spot price: 2.0" ∧
    dget cexPoolDict "fee_rate_bps" = .int 30 ∧
    pyStr (.int 30) = "30" ∧
    fmt2 30 = "0.30" ∧
    ("0.30" : String) ≠ "30" := by
  refine ⟨rfl, rfl, rfl, rfl, by decide⟩

/-- C6: when a `claim-fees` response carries `note = "No fees to claim"`,
the tool returns the success message naming the pair with no fee amounts,
mode, or signature (the output is a fixed template independent of every
other response field); for every other successful response it renders
`fees_a`, `fees_b`, the auto-compound mode, and the `tx` signature; only a
transport `RuntimeError` produces the failure-labelled message. -/
theorem claim6_claim_fees_note (wcfg : WalletCfg) (i : PairInput) (d : Dict)
    (e : String) :
    (pyEqStr (dget d "note") "No fees to claim" = true →
      (claimFeesStep wcfg i (.ok d)).output =
        "No fees to claim for " ++ i.mint_a ++ "/" ++ i.mint_b ++ " position.") ∧
    (pyEqStr (dget d "note") "No fees to claim" = false →
      (claimFeesStep wcfg i (.ok d)).output =
        "Fees claimed from " ++ i.mint_a ++ "/" ++ i.mint_b ++ " pool\n" ++
        "  Fees A:    " ++ pyStr (dget d "fees_a") ++ "\n" ++
        "  Fees B:    " ++ pyStr (dget d "fees_b") ++ "\n" ++
        "  Mode:      " ++ (if pyTruthy (dget d "auto_compound") then
          "auto-compounded into LP shares" else "transferred to wallet") ++ "\n" ++
        "  Signature: " ++ pyStr (dget d "tx")) ∧
    (claimFeesStep wcfg i (.error e)).output = "Claim fees failed: " ++ e := by
  refine ⟨fun h => ?_, fun h => ?_, rfl⟩
  · simp [claimFeesStep, claimFeesRender, h]
  · simp [claimFeesStep, claimFeesRender, h]

/-- C6 witness: the theorem applied to a concrete sentinel response and
pair. -/
theorem claim6_claim_fees_note_witness :
    (claimFeesStep ⟨some "kp.json", Option.none⟩ ⟨"SOL", "USDC"⟩
        (.ok [("note", .str "No fees to claim")])).output =
      "No fees to claim for SOL/USDC position." :=
  (claim6_claim_fees_note ⟨some "kp.json", Option.none⟩ ⟨"SOL", "USDC"⟩
    [("note", .str "No fees to claim")] "").1 rfl

/-- C3 (amended): the transport wrapper signals failure if and only if the
CLI process exits non-zero or its stdout is not valid JSON; an explicit
error field in a zero-exit valid-JSON response is not treated as failure —
the parsed record (error field included) is returned unchanged. -/
theorem claim3_run_failure_iff (parse : String → Option Dict)
    (sub : String) (r : CliResult) :
    ((∃ d, runDecode parse sub r = .ok d) ↔
      (r.exitCode = 0 ∧ ∃ d, parse r.stdout = some d)) ∧
    (∀ d, r.exitCode = 0 → parse r.stdout = some d →
      runDecode parse sub r = .ok d) := by
  unfold runDecode
  by_cases h : r.exitCode = 0
  · cases hp : parse r.stdout <;> simp [h, hp]
  · simp [h]

/-- C3 witness: the theorem applied to a concrete parser and a zero-exit
result. -/
theorem claim3_run_failure_iff_witness :
    runDecode (fun _ => some []) "pool-info" ⟨0, "\x7b\x7d", ""⟩ = .ok [] :=
  (claim3_run_failure_iff (fun _ => some []) "pool-info" ⟨0, "\x7b\x7d", ""⟩).2
    [] rfl rfl

/-- C3 counterexample: the claim says `run` raises when the response
carries an explicit error field, but on exit code 0 with stdout the valid
JSON object containing only an `error` field, `run` returns the parsed
record instead of signalling failure. -/
theorem claim3_error_field_not_failure_cex :
    cexJsonResult.exitCode = 0 ∧
    cexJsonParse cexJsonResult.stdout = some errDict ∧
    List.lookup "error" errDict = some (.str "boom") ∧
    runDecode cexJsonParse "convert" cexJsonResult = .ok errDict :=
  ⟨rfl, rfl, rfl, rfl⟩

/-- C4 (amended): on a non-zero CLI exit, the tool returns (rather than
raises) a message consisting of a fixed failure label and the transport
error text, inside which the CLI diagnostic (stripped stderr, or stripped
stdout when stderr strips to empty) is embedded unaltered as the suffix;
every tool forwards the transport error text whole — none suppresses or
rewrites it, each only puts a fixed label in front. -/
theorem claim4_diag_embedded (parse : String → Option Dict)
    (rcfg : ReadOnlyCfg) (wcfg : WalletCfg) (wi : SwapInput) (r : CliResult)
    (e : String) (h : r.exitCode ≠ 0) :
    (swapStep wcfg wi (runDecode parse "convert" r)).output =
      "Swap failed: " ++ ("a2a-swap convert failed:\n" ++ diagOf r) ∧
    (∀ si : SimInput,
      (simulateStep rcfg si (.error e)).output = "Simulation failed: " ++ e) ∧
    (∀ pv : ProvideInput,
      (provideStep wcfg pv (.error e)).output = "Provide liquidity failed: " ++ e) ∧
    (∀ rm : RemoveInput,
      (removeStep wcfg rm (.error e)).output = "Remove liquidity failed: " ++ e) ∧
    (∀ cf : PairInput,
      (claimFeesStep wcfg cf (.error e)).output = "Claim fees failed: " ++ e) ∧
    (∀ qi : PairInput,
      (poolInfoStep rcfg qi (.error e)).output = "Pool info failed: " ++ e) ∧
    (swapStep wcfg wi (.error e)).output = "Swap failed: " ++ e ∧
    (myFeesStep wcfg (.error e)).output = "Fee check failed: " ++ e := by
  refine ⟨?_, fun _ => rfl, fun _ => rfl, fun _ => rfl, fun _ => rfl,
    fun _ => rfl, rfl, rfl⟩
  have hr : runDecode parse "convert" r = .error (cliFailMsg "convert" r) := by
    unfold runDecode
    rw [if_pos h]
  rw [hr]
  rfl

/-- C4 witness: the theorem applied to a concrete failing CLI result. -/
theorem claim4_diag_embedded_witness :
    (swapStep ⟨Option.none, Option.none⟩ cexSwapInput
        (runDecode (fun _ => Option.none) "convert" cexFailResult)).output =
      "Swap failed: " ++ ("a2a-swap convert failed:\n" ++ diagOf cexFailResult) :=
  (claim4_diag_embedded (fun _ => Option.none) ⟨Option.none⟩
    ⟨Option.none, Option.none⟩ cexSwapInput cexFailResult "" (by decide)).1

/-- C4 counterexample: the claim says the end user receives the CLI's
diagnostic output verbatim, but on stderr `" boom \n"` the swap tool
returns a message that wraps the (whitespace-stripped) diagnostic in fixed
labels — the returned text equals neither the stderr nor even its stripped
form. -/
theorem claim4_wrapped_not_verbatim_cex :
    (swapStep ⟨Option.none, Option.none⟩ cexSwapInput
        (runDecode (fun _ => Option.none) "convert" cexFailResult)).output =
      "Swap failed: a2a-swap convert failed:\nboom" ∧
    cexFailResult.stderr = " boom \n" ∧
    ("Swap failed: a2a-swap convert failed:\nboom" : String) ≠ " boom \n" ∧
    ("Swap failed: a2a-swap convert failed:\nboom" : String) ≠ "boom" := by
  refine ⟨rfl, rfl, by decide, by decide⟩

/-- C8: the transport resolves the keypair as the explicit non-empty
argument, else the `A2A_KEYPAIR` environment value when truthy, else omits
`--keypair` entirely; the rpc url as the explicit non-empty argument, else
the `A2A_RPC_URL` environment value, else the mainnet-beta default; and the
read-only tools pass no keypair of their own, so a set (non-empty)
`A2A_KEYPAIR` is still forwarded onto their command lines. -/
theorem claim8_global_opts_resolution (cli sub : String) (args : List String)
    (env : Env) (rcfg : ReadOnlyCfg) (si : SimInput) (o : Outcome) :
    (∀ (s : String) (rpc : Option String), s ≠ "" →
      buildCmd cli sub args (some s) rpc env =
        [cli, "--rpc-url", resolveRpc rpc env, "--keypair", s] ++
          (sub :: args) ++ ["--json"]) ∧
    (∀ (kp rpc : Option String) (t : String),
      (kp = Option.none ∨ kp = some "") → env.a2aKeypair = some t → t ≠ "" →
      buildCmd cli sub args kp rpc env =
        [cli, "--rpc-url", resolveRpc rpc env, "--keypair", t] ++
          (sub :: args) ++ ["--json"]) ∧
    (∀ (kp rpc : Option String),
      (kp = Option.none ∨ kp = some "") →
      (env.a2aKeypair = Option.none ∨ env.a2aKeypair = some "") →
      buildCmd cli sub args kp rpc env =
        [cli, "--rpc-url", resolveRpc rpc env] ++ (sub :: args) ++ ["--json"]) ∧
    (∀ (u : String), u ≠ "" → resolveRpc (some u) env = u) ∧
    (∀ (rpc : Option String) (v : String),
      (rpc = Option.none ∨ rpc = some "") → env.a2aRpcUrl = some v →
      resolveRpc rpc env = v) ∧
    (∀ (rpc : Option String),
      (rpc = Option.none ∨ rpc = some "") → env.a2aRpcUrl = Option.none →
      resolveRpc rpc env = defaultRpc) ∧
    ((simulateStep rcfg si o).calls.map CliCall.keypair = [Option.none]) ∧
    (∀ (qi : PairInput),
      (poolInfoStep rcfg qi o).calls.map CliCall.keypair = [Option.none]) ∧
    (∀ (t : String), t ≠ "" → env.a2aKeypair = some t →
      buildCmd cli "simulate" (simulateArgs si) Option.none rcfg.rpc_url env =
        [cli, "--rpc-url", resolveRpc rcfg.rpc_url env, "--keypair", t] ++
          ("simulate" :: simulateArgs si) ++ ["--json"]) := by
  refine ⟨?_, ?_, ?_, ?_, ?_, ?_, rfl, fun _ => rfl, ?_⟩
  · intro s rpc hs
    simp [buildCmd, kpSegment, resolveKp, hs]
  · intro kp rpc t hkp ht htne
    rcases hkp with h | h <;> subst h <;>
      simp [buildCmd, kpSegment, resolveKp, ht, htne]
  · intro kp rpc hkp henv
    rcases hkp with h | h <;> subst h <;>
      rcases henv with h2 | h2 <;>
        simp [buildCmd, kpSegment, resolveKp, h2]
  · intro u hu
    simp [resolveRpc, pyOrStr, hu]
  · intro rpc v hrpc hv
    rcases hrpc with h | h <;> subst h <;> simp [resolveRpc, pyOrStr, hv]
  · intro rpc hrpc hv
    rcases hrpc with h | h <;> subst h <;> simp [resolveRpc, pyOrStr, hv]
  · intro t ht htenv
    simp [buildCmd, kpSegment, resolveKp, htenv, ht]

/-- C8 witness: a set `A2A_KEYPAIR` is forwarded by the (keypair-less)
simulate tool's command line. -/
theorem claim8_global_opts_resolution_witness :
    buildCmd "a2a-swap" "simulate"
        (simulateArgs ⟨"SOL", "USDC", 1000000000⟩) Option.none Option.none
        ⟨some "agent.json", Option.none⟩ =
      ["a2a-swap", "--rpc-url",
        resolveRpc Option.none ⟨some "agent.json", Option.none⟩,
        "--keypair", "agent.json"] ++
        ("simulate" :: simulateArgs ⟨"SOL", "USDC", 1000000000⟩) ++ ["--json"] :=
  ((claim8_global_opts_resolution "a2a-swap" "simulate" []
      ⟨some "agent.json", Option.none⟩ ⟨Option.none⟩
      ⟨"SOL", "USDC", 1000000000⟩ (Except.ok [])).2.2.2.2.2.2.2.2)
    "agent.json" (by decide) rfl

/-- Arithmetic core of the swap product accounting: with input reserve
`ra`, output reserve `rb`, net input `net` and LP fee `lpf`, the post-swap
reserves are `ra + net + lpf` and `q = ra * rb / (ra + net)`, and the
product satisfies an exact division identity. -/
theorem swap_product_core (ra rb net lpf : Nat) (hra : ra ≠ 0) :
    (ra + net + lpf) * (ra * rb / (ra + net)) + (ra * rb) % (ra + net) =
      ra * rb + lpf * (ra * rb / (ra + net)) ∧
    ra * rb ≤ (ra + net + lpf) * (ra * rb / (ra + net)) + (ra + net) ∧
    ((ra * rb) % (ra + net) ≤ lpf * (ra * rb / (ra + net)) →
      ra * rb ≤ (ra + net + lpf) * (ra * rb / (ra + net))) ∧
    rb - (rb - ra * rb / (ra + net)) = ra * rb / (ra + net) := by
  have hrapos : 0 < ra := Nat.pos_of_ne_zero hra
  have hD : 0 < ra + net := Nat.lt_of_lt_of_le hrapos (Nat.le_add_right _ _)
  set q := ra * rb / (ra + net) with hq
  set r := ra * rb % (ra + net) with hrdef
  have hdm : (ra + net) * q + r = ra * rb := Nat.div_add_mod _ _
  have hid : (ra + net + lpf) * q + r = ra * rb + lpf * q := by
    have hsplit : (ra + net + lpf) * q + r = ((ra + net) * q + r) + lpf * q := by
      ring
    rw [hsplit, hdm]
  have hrlt : r < ra + net := Nat.mod_lt _ hD
  have hqle : q ≤ rb := by
    calc q ≤ ra * rb / ra :=
        Nat.div_le_div_left (Nat.le_add_right _ _) hrapos
    _ = rb := Nat.mul_div_cancel_left rb hrapos
  refine ⟨hid, ?_, ?_, Nat.sub_sub_self hqle⟩
  · calc ra * rb ≤ ra * rb + lpf * q := Nat.le_add_right _ _
    _ = (ra + net + lpf) * q + r := hid.symm
    _ ≤ (ra + net + lpf) * q + (ra + net) := Nat.add_le_add_left hrlt.le _
  · intro hle
    have h1 : ra * rb + lpf * q ≤ (ra + net + lpf) * q + lpf * q := by
      rw [← hid]
      exact Nat.add_le_add_left hle _
    exact Nat.le_of_add_le_add_right h1

/-- C7 (amended): for every valid `apply_swap` under the spec's §4.2 output
formula, the post-swap reserve product obeys the exact identity
`new_product + rem = old_product + lp_fee * q`, where
`q = ⌊reserve_in * reserve_out / (reserve_in + net_in)⌋` is the new output
reserve and `rem = (reserve_in * reserve_out) mod (reserve_in + net_in)` is
the floor remainder; hence the product can drop by at most
`reserve_in + net_in`, and it is at least the old product exactly when
`lp_fee * q` covers the remainder (the unconditional `new ≥ old` of the
claim does not hold — see the counterexample). -/
theorem claim7_product_identity (p : Pool) (mint_in : String) (a : Nat)
    (b : Bool) (hd : dirOf p mint_in = some b) (ha : a ≠ 0)
    (hra : p.reserve_a ≠ 0) (hrb : p.reserve_b ≠ 0) :
    ∃ p', apply_swap p mint_in a 0 = .ok p' ∧
      p'.reserve_a * p'.reserve_b +
          (inReserve p b * outReserve p b) %
            (inReserve p b + netIn a p.fee_rate_bps) =
        p.reserve_a * p.reserve_b +
          lpFee a p.fee_rate_bps *
            ((inReserve p b * outReserve p b) /
              (inReserve p b + netIn a p.fee_rate_bps)) ∧
      p.reserve_a * p.reserve_b ≤
        p'.reserve_a * p'.reserve_b +
          (inReserve p b + netIn a p.fee_rate_bps) ∧
      ((inReserve p b * outReserve p b) %
            (inReserve p b + netIn a p.fee_rate_bps) ≤
          lpFee a p.fee_rate_bps *
            ((inReserve p b * outReserve p b) /
              (inReserve p b + netIn a p.fee_rate_bps)) →
        p.reserve_a * p.reserve_b ≤ p'.reserve_a * p'.reserve_b) := by
  have hmm : if b then mint_in = p.mint_a
      else (mint_in ≠ p.mint_a ∧ mint_in = p.mint_b) := by
    unfold dirOf at hd
    by_cases h1 : mint_in = p.mint_a
    · rw [if_pos h1] at hd
      cases b
      · exact absurd (Option.some.inj hd) (by decide)
      · exact h1
    · rw [if_neg h1] at hd
      by_cases h2 : mint_in = p.mint_b
      · rw [if_pos h2] at hd
        cases b
        · exact ⟨h1, h2⟩
        · exact absurd (Option.some.inj hd) (by decide)
      · rw [if_neg h2] at hd
        exact absurd hd (by simp)
  cases b
  · obtain ⟨h1, h2⟩ := hmm
    obtain ⟨hid, hbound, hmono, hsub⟩ :=
      swap_product_core p.reserve_b p.reserve_a (netIn a p.fee_rate_bps)
        (lpFee a p.fee_rate_bps) hrb
    have hpa : p.reserve_a -
        amountOut p.reserve_b p.reserve_a (netIn a p.fee_rate_bps) =
        p.reserve_b * p.reserve_a / (p.reserve_b + netIn a p.fee_rate_bps) := by
      unfold amountOut
      exact hsub
    refine ⟨{ p with
        reserve_b := p.reserve_b + netIn a p.fee_rate_bps + lpFee a p.fee_rate_bps,
        reserve_a := p.reserve_a -
          amountOut p.reserve_b p.reserve_a (netIn a p.fee_rate_bps) }, ?_, ?_, ?_, ?_⟩
    · have h1' : ¬(p.mint_b = p.mint_a) := h2 ▸ h1
      simp [apply_swap, quote_swap, dirOf, h2, h1', ha, hra, hrb,
        inReserve, outReserve]
    · show (p.reserve_a -
          amountOut p.reserve_b p.reserve_a (netIn a p.fee_rate_bps)) *
            (p.reserve_b + netIn a p.fee_rate_bps + lpFee a p.fee_rate_bps) +
          (inReserve p false * outReserve p false) %
            (inReserve p false + netIn a p.fee_rate_bps) = _
      simp only [inReserve, outReserve]
      rw [hpa]
      calc p.reserve_b * p.reserve_a / (p.reserve_b + netIn a p.fee_rate_bps) *
            (p.reserve_b + netIn a p.fee_rate_bps + lpFee a p.fee_rate_bps) +
          p.reserve_b * p.reserve_a % (p.reserve_b + netIn a p.fee_rate_bps)
          = (p.reserve_b + netIn a p.fee_rate_bps + lpFee a p.fee_rate_bps) *
              (p.reserve_b * p.reserve_a / (p.reserve_b + netIn a p.fee_rate_bps)) +
            p.reserve_b * p.reserve_a % (p.reserve_b + netIn a p.fee_rate_bps) := by
            ring
        _ = p.reserve_b * p.reserve_a +
            lpFee a p.fee_rate_bps *
              (p.reserve_b * p.reserve_a / (p.reserve_b + netIn a p.fee_rate_bps)) := hid
        _ = p.reserve_a * p.reserve_b +
            lpFee a p.fee_rate_bps *
              (p.reserve_b * p.reserve_a / (p.reserve_b + netIn a p.fee_rate_bps)) := by
            ring
    · show p.reserve_a * p.reserve_b ≤
        (p.reserve_a -
            amountOut p.reserve_b p.reserve_a (netIn a p.fee_rate_bps)) *
          (p.reserve_b + netIn a p.fee_rate_bps + lpFee a p.fee_rate_bps) +
          (inReserve p false + netIn a p.fee_rate_bps)
      simp only [inReserve]
      rw [hpa]
      calc p.reserve_a * p.reserve_b = p.reserve_b * p.reserve_a := by ring
        _ ≤ (p.reserve_b + netIn a p.fee_rate_bps + lpFee a p.fee_rate_bps) *
              (p.reserve_b * p.reserve_a / (p.reserve_b + netIn a p.fee_rate_bps)) +
            (p.reserve_b + netIn a p.fee_rate_bps) := hbound
        _ = p.reserve_b * p.reserve_a / (p.reserve_b + netIn a p.fee_rate_bps) *
              (p.reserve_b + netIn a p.fee_rate_bps + lpFee a p.fee_rate_bps) +
            (p.reserve_b + netIn a p.fee_rate_bps) := by ring
    · show (inReserve p false * outReserve p false) %
            (inReserve p false + netIn a p.fee_rate_bps) ≤
          lpFee a p.fee_rate_bps *
            ((inReserve p false * outReserve p false) /
              (inReserve p false + netIn a p.fee_rate_bps)) →
        p.reserve_a * p.reserve_b ≤
          (p.reserve_a -
              amountOut p.reserve_b p.reserve_a (netIn a p.fee_rate_bps)) *
            (p.reserve_b + netIn a p.fee_rate_bps + lpFee a p.fee_rate_bps)
      simp only [inReserve, outReserve]
      rw [hpa]
      intro hle
      calc p.reserve_a * p.reserve_b = p.reserve_b * p.reserve_a := by ring
        _ ≤ (p.reserve_b + netIn a p.fee_rate_bps + lpFee a p.fee_rate_bps) *
              (p.reserve_b * p.reserve_a / (p.reserve_b + netIn a p.fee_rate_bps)) :=
            hmono hle
        _ = p.reserve_b * p.reserve_a / (p.reserve_b + netIn a p.fee_rate_bps) *
              (p.reserve_b + netIn a p.fee_rate_bps + lpFee a p.fee_rate_bps) := by
            ring
  · have h1 : mint_in = p.mint_a := hmm
    obtain ⟨hid, hbound, hmono, hsub⟩ :=
      swap_product_core p.reserve_a p.reserve_b (netIn a p.fee_rate_bps)
        (lpFee a p.fee_rate_bps) hra
    have hpb : p.reserve_b -
        amountOut p.reserve_a p.reserve_b (netIn a p.fee_rate_bps) =
        p.reserve_a * p.reserve_b / (p.reserve_a + netIn a p.fee_rate_bps) := by
      unfold amountOut
      exact hsub
    refine ⟨{ p with
        reserve_a := p.reserve_a + netIn a p.fee_rate_bps + lpFee a p.fee_rate_bps,
        reserve_b := p.reserve_b -
          amountOut p.reserve_a p.reserve_b (netIn a p.fee_rate_bps) }, ?_, ?_, ?_, ?_⟩
    · simp [apply_swap, quote_swap, dirOf, h1, ha, hra, hrb,
        inReserve, outReserve]
    · show (p.reserve_a + netIn a p.fee_rate_bps + lpFee a p.fee_rate_bps) *
          (p.reserve_b -
            amountOut p.reserve_a p.reserve_b (netIn a p.fee_rate_bps)) +
          (inReserve p true * outReserve p true) %
            (inReserve p true + netIn a p.fee_rate_bps) = _
      simp only [inReserve, outReserve]
      rw [hpb]
      exact hid
    · show p.reserve_a * p.reserve_b ≤
        (p.reserve_a + netIn a p.fee_rate_bps + lpFee a p.fee_rate_bps) *
          (p.reserve_b -
            amountOut p.reserve_a p.reserve_b (netIn a p.fee_rate_bps)) +
          (inReserve p true + netIn a p.fee_rate_bps)
      simp only [inReserve]
      rw [hpb]
      exact hbound
    · show (inReserve p true * outReserve p true) %
            (inReserve p true + netIn a p.fee_rate_bps) ≤
          lpFee a p.fee_rate_bps *
            ((inReserve p true * outReserve p true) /
              (inReserve p true + netIn a p.fee_rate_bps)) →
        p.reserve_a * p.reserve_b ≤
          (p.reserve_a + netIn a p.fee_rate_bps + lpFee a p.fee_rate_bps) *
            (p.reserve_b -
              amountOut p.reserve_a p.reserve_b (netIn a p.fee_rate_bps))
      simp only [inReserve, outReserve]
      rw [hpb]
      exact hmono

/-- C7 witness: the product identity applied to a concrete pool and swap. -/
theorem claim7_product_identity_witness :
    ∃ p', apply_swap wPool "A" 400 0 = .ok p' ∧
      p'.reserve_a * p'.reserve_b +
          (inReserve wPool true * outReserve wPool true) %
            (inReserve wPool true + netIn 400 wPool.fee_rate_bps) =
        wPool.reserve_a * wPool.reserve_b +
          lpFee 400 wPool.fee_rate_bps *
            ((inReserve wPool true * outReserve wPool true) /
              (inReserve wPool true + netIn 400 wPool.fee_rate_bps)) ∧
      wPool.reserve_a * wPool.reserve_b ≤
        p'.reserve_a * p'.reserve_b +
          (inReserve wPool true + netIn 400 wPool.fee_rate_bps) ∧
      ((inReserve wPool true * outReserve wPool true) %
            (inReserve wPool true + netIn 400 wPool.fee_rate_bps) ≤
          lpFee 400 wPool.fee_rate_bps *
            ((inReserve wPool true * outReserve wPool true) /
              (inReserve wPool true + netIn 400 wPool.fee_rate_bps)) →
        wPool.reserve_a * wPool.reserve_b ≤ p'.reserve_a * p'.reserve_b) :=
  claim7_product_identity wPool "A" 400 true rfl (by decide) (by decide)
    (by decide)

/-- C7 counterexample: the claim says the reserve product never decreases
across a valid `apply_swap` (equality only at `lp_fee = 0`), but under the
spec's own §4.2 formula a swap of 400 into the (1000, 1000) pool at
30 bps — which pays a positive LP fee of 1 — leaves reserves (1400, 714),
whose product 999600 is strictly below the previous 1000000. -/
theorem claim7_product_decrease_cex :
    apply_swap cexPool "A" 400 0 =
      .ok { mint_a := "A", mint_b := "B", reserve_a := 1400,
            reserve_b := 714, lp_supply := 1000, fee_rate_bps := 30 } ∧
    lpFee 400 cexPool.fee_rate_bps = 1 ∧
    1400 * 714 < 1000 * 1000 ∧
    cexPool.reserve_a * cexPool.reserve_b = 1000 * 1000 := by
  refine ⟨rfl, rfl, by decide, rfl⟩

end A2ASwap
